import Mathlib

/-!
Verification development for the folder/entity resolution core of this
repository, a shallow embedding of the class `Entity` from
src/python/tank/folder/folder_types/entity.py.

Modelling conventions:
- Python values (scalars, links, lists of links, None) are the inductive
  `Value`; a Shotgun record is an insertion ordered association list.
- Python dictionaries are association lists with `lookupField` (lookup),
  `dictInsert` (assignment, overwrite keeps position) and `updateDict`
  (dict.update).  Python sets of field names are duplicate free lists with
  `setAdd` / `setUnion`; the iteration order of a CPython set is
  unspecified, the lists here fix one order, and set level facts are stated
  through membership.
- Exceptions (`TankError`, `EntityLinkTypeMismatch`, `KeyError`,
  `TypeError`, `AttributeError`) become the `Except PyError` monad, written
  with explicit matches.  A seed stored under the own level key that is not
  a dictionary makes the Python code fail with a `TypeError` or
  `AttributeError` at the first subscript / attribute access; the embedding
  raises `PyError.typeError` at the corresponding branch.
- External collaborators (the Shotgun catalog client, the current user
  resolver, `get_sg_entity_name_field`, the name expression and the path
  template codec) are functions carried by `Env` and by the node record;
  string rendering of containers inside error messages is abstracted by
  `pyStr`.
-/

namespace TkEntity

/-- Python values as they appear in Shotgun records: None, numbers, strings,
lists, and dictionaries.  A link is a dictionary carrying type and id. -/
inductive Value : Type where
  | vNone : Value
  | vInt : Int → Value
  | vStr : String → Value
  | vList : List Value → Value
  | vDict : List (String × Value) → Value

/-- A Shotgun record: insertion ordered mapping from field name to value. -/
abbrev Record := List (String × Value)

/-- The working record-data map (`sg_data` / `tokens` in the source):
hierarchy level key to stored value (usually a record, but the merges in
`extract_shotgun_data_upwards` can also store lists and scalars). -/
abbrev Tokens := List (String × Value)

/-- Python dictionary lookup; `d.get(k)` returns `none` when absent, the
call sites that use `d[k]` turn `none` into a `KeyError`. -/
def lookupField {α : Type} : List (String × α) → String → Option α
  | [], _ => none
  | (k, v) :: rest, key => if k == key then some v else lookupField rest key

/-- Python dictionary assignment `d[k] = v`: overwrite in place, keeping the
original insertion position of an existing key. -/
def dictInsert {α : Type} (k : String) (v : α) : List (String × α) → List (String × α)
  | [] => [(k, v)]
  | (k1, v1) :: rest => if k1 == k then (k1, v) :: rest else (k1, v1) :: dictInsert k v rest

/-- Python `base.update(upd)`: merge every key of `upd` into `base`. -/
def updateDict (base upd : List (String × Value)) : List (String × Value) :=
  upd.foldl (fun acc kv => dictInsert kv.1 kv.2 acc) base

/-- Python `set.add` modelled on a duplicate free list. -/
def setAdd (s : List String) (x : String) : List String :=
  if x ∈ s then s else s ++ [x]

/-- Python `set.update(xs)` modelled on duplicate free lists. -/
def setUnion (s : List String) : List String → List String
  | [] => s
  | x :: xs => setUnion (setAdd s x) xs

/-- Char list test for a leading segment, modelling Python `str.startswith`. -/
def charsPrefix : List Char → List Char → Bool
  | [], _ => true
  | _ :: _, [] => false
  | p :: ps, c :: cs => p == c && charsPrefix ps cs

/-- Python `s.startswith(p)`. -/
def strStartsWith (s p : String) : Bool := charsPrefix p.data s.data

/-- A filter expression token (`FilterExpressionToken`): carries the working
map key of the hierarchy level it refers to (`get_sg_data_key`) and the
entity type expected at that level (`get_entity_type`). -/
structure FilterExpressionToken where
  dataKey : String
  entityType : String
  deriving DecidableEq, Repr

/-- A value inside the `values` list of a filter condition: either a literal
Python value or an interleaved `FilterExpressionToken`. -/
inductive CondValue : Type where
  | lit : Value → CondValue
  | token : FilterExpressionToken → CondValue

/-- One Shotgun filter condition `{path, relation, values}`. -/
structure Condition where
  path : String
  relation : String
  values : List CondValue

/-- A Shotgun filter dictionary `{logical_operator, conditions}`. -/
structure FilterDict where
  logicalOperator : String
  conditions : List Condition

/-- The Python exceptions this module can raise. -/
inductive PyError : Type where
  | tankError : String → PyError
  | entityLinkTypeMismatch : String → PyError
  | keyError : String → PyError
  | typeError : PyError
  | attributeError : PyError

/-- The two filter shapes handed to `find_one` by the source: the dictionary
shape with interleaved conditions, and the bare list-of-triples shape used by
the id only disambiguation lookup at line 429. -/
inductive SgQueryFilter : Type where
  | dictF : FilterDict → SgQueryFilter
  | listF : List (String × String × Value) → SgQueryFilter

/-- A logged catalog query of `__get_entities`: entity type, filter and the
field list passed to `find`. -/
abbrev CatalogQuery := String × FilterDict × List String

/-- External collaborators: the catalog client (`find` / `find_one`), the
current user resolver (`login.get_current_user`), the per entity type display
name field (`shotgun_entity.get_sg_entity_name_field`), and `os.path.sep`. -/
structure Env where
  findOne : String → SgQueryFilter → Option (List String) → Option Record
  find : String → FilterDict → List String → List Record
  currentUser : Option Record
  nameFieldFor : String → String
  pathSep : String

/-- One `Entity` folder node: the static configuration the constructor
stores, plus the outputs of its collaborators (name expression field sets,
`sg_data_key_for_folder_obj`, template codec) as data. -/
structure EntityNode where
  entityType : String
  dataKey : String
  sgFields : List String
  sgLinkFields : List String
  additionalSgFields : List String
  filters : FilterDict
  createWithParent : Bool
  generateName : Record → String
  templateKeys : List (String × String × String)
  applyFields : List (String × Value) → String
  configMetadata : String

/-- Best effort rendering of a value inside an error message (Python `str`);
container rendering is abstracted. -/
def pyStr : Value → String
  | .vNone => "None"
  | .vInt n => toString n
  | .vStr s => s
  | .vList _ => "<list>"
  | .vDict _ => "<dict>"

/-- Message of the fatal current user error (lines 264 and 333). -/
def humanUserMsg : String :=
  "Folder Creation Error: Could not find a HumanUser in shotgun with login " ++
  "matching the local login. Check that the local login corresponds to a " ++
  "user in shotgun."

/-- Message of the fatal not-found error (line 430). -/
def notFoundMsg (et : String) (idv : Value) : String :=
  "Could not find Shotgun " ++ et ++ " with id " ++ pyStr idv ++
  " as required by the folder creation setup."

/-- Message of the mismatch raised for a dependency field with no value
(line 456). -/
def noValueMsg (et nameField field : String) : String :=
  "The " ++ et ++ " " ++ nameField ++ " has a required field " ++ field ++
  " that does not have a value set in Shotgun. Double check the values " ++
  "and try again!"

/-- Modelled from the spec: `resolve_shotgun_filters` lives in
src/python/tank/folder/folder_types/util.py, which is imported by entity.py
but is not among the sources.  Per the spec (section 4.2) the resolver deep
copies the expression, walks the conditions, and replaces every filter token
by the value stored in the working map under the token level key, raising a
resolution dependency error when that key is absent; literal values pass
through unchanged; the function is pure.  This helper resolves one value. -/
def resolveCondValue (tokens : Tokens) : CondValue → Except PyError CondValue
  | .lit v => .ok (.lit v)
  | .token t =>
    match lookupField tokens t.dataKey with
    | some v => .ok (.lit v)
    | none => .error (.tankError ( "Could not resolve the filter token referring to " ++ t.dataKey))

/-- Modelled from the spec: token resolution over a condition value list. -/
def resolveValues (tokens : Tokens) : List CondValue → Except PyError (List CondValue)
  | [] => .ok []
  | v :: vs =>
    match resolveCondValue tokens v with
    | .error e => .error e
    | .ok v1 =>
      match resolveValues tokens vs with
      | .error e => .error e
      | .ok vs1 => .ok (v1 :: vs1)

/-- Modelled from the spec: token resolution over a condition list. -/
def resolveConditions (tokens : Tokens) : List Condition → Except PyError (List Condition)
  | [] => .ok []
  | c :: cs =>
    match resolveValues tokens c.values with
    | .error e => .error e
    | .ok vs =>
      match resolveConditions tokens cs with
      | .error e => .error e
      | .ok cs1 => .ok ({ path := c.path, relation := c.relation, values := vs } :: cs1)

/-- Modelled from the spec: `resolve_shotgun_filters(filterExpr, workingMap)`
(section 4.2 of the spec), a pure tree rewrite of the filter dictionary. -/
def resolveShotgunFilters (f : FilterDict) (tokens : Tokens) : Except PyError FilterDict :=
  match resolveConditions tokens f.conditions with
  | .error e => .error e
  | .ok cs => .ok { logicalOperator := f.logicalOperator, conditions := cs }

/-- The HumanUser special case shared by `__get_entities` (lines 253-269)
and `extract_shotgun_data_upwards` (lines 322-338): when the entity type is
HumanUser and the level has no seed yet, the current local user is inserted
under the level key; a missing (or falsy empty) user is a fatal error. -/
def humanUserSeed (env : Env) (node : EntityNode) (tokens : Tokens) : Except PyError Tokens :=
  if node.entityType == "HumanUser" && (lookupField tokens node.dataKey).isNone then
    match env.currentUser with
    | none => .error (.tankError humanUserMsg)
    | some [] => .error (.tankError humanUserMsg)
    | some u => .ok (dictInsert node.dataKey (.vDict u) tokens)
  else .ok tokens

/-- Accumulator of the condition partition loop of
`extract_shotgun_data_upwards` (lines 365-400): the growing required field
set, `link_map` (a Python dictionary, hence `dictInsert`), and the list of
plain query filter conditions. -/
structure ClassifyAcc where
  fields : List String
  linkMap : List (String × FilterExpressionToken)
  filters : List Condition

/-- One iteration of the condition partition loop (lines 369-400): a
condition with an empty value list is skipped; a condition whose path starts
with the step culling marker is skipped; otherwise only the first value is
inspected: a token makes the condition a field-to-level mapping (and adds
its path to the required fields), anything else keeps the whole condition as
a plain query filter. -/
def classifyCondition (acc : ClassifyAcc) (c : Condition) : ClassifyAcc :=
  match c.values with
  | [] => acc
  | v0 :: _ =>
    if strStartsWith c.path "$FROM$" then acc
    else
      match v0 with
      | .token t =>
        { acc with fields := setAdd acc.fields c.path,
                   linkMap := dictInsert c.path t acc.linkMap }
      | .lit _ => { acc with filters := acc.filters ++ [c] }

/-- The required field set computed before the condition loop of
`extract_shotgun_data_upwards` (lines 353-363): name expression fields, link
fields, subclass extra fields, then the display name field. -/
def extractBaseFields (env : Env) (node : EntityNode) : List String :=
  setAdd (setUnion (setUnion (setUnion [] node.sgFields) node.sgLinkFields)
    node.additionalSgFields) (env.nameFieldFor node.entityType)

/-- The full condition partition of `extract_shotgun_data_upwards`. -/
def extractClassify (env : Env) (node : EntityNode) : ClassifyAcc :=
  node.filters.conditions.foldl classifyCondition
    { fields := extractBaseFields env node, linkMap := [], filters := [] }

/-- The id equality condition appended at lines 280 and 411. -/
def idCondition (idv : Value) : Condition :=
  { path := "id", relation := "is", values := [.lit idv] }

/-- One iteration of the link promotion loop of
`extract_shotgun_data_upwards` (lines 445-480): read the mapped field from
the (possibly just refreshed) record stored under the own level key; a
missing value or None raises the mismatch; a single link dictionary is type
checked against the token target entity type and then dict merged; a list is
appended; a scalar overwrites the target slot. -/
def promoteOne (env : Env) (node : EntityNode) (tokens : Tokens)
    (ft : String × FilterExpressionToken) : Except PyError Tokens :=
  match lookupField tokens node.dataKey with
  | some (.vDict rec) =>
    match lookupField rec ft.1 with
    | none =>
      .error (.entityLinkTypeMismatch
        (noValueMsg node.entityType (env.nameFieldFor node.entityType) ft.1))
    | some .vNone =>
      .error (.entityLinkTypeMismatch
        (noValueMsg node.entityType (env.nameFieldFor node.entityType) ft.1))
    | some (.vDict d) =>
      match lookupField d "type" with
      | some (.vStr t) =>
        if t == ft.2.entityType then
          match lookupField tokens ft.2.dataKey with
          | none => .ok (dictInsert ft.2.dataKey (.vDict (updateDict [] d)) tokens)
          | some (.vDict ex) => .ok (dictInsert ft.2.dataKey (.vDict (updateDict ex d)) tokens)
          | some _ => .error .attributeError
        else .error (.entityLinkTypeMismatch "")
      | some _ => .error (.entityLinkTypeMismatch "")
      | none => .error (.keyError "type")
    | some (.vList xs) =>
      match lookupField tokens ft.2.dataKey with
      | none => .ok (dictInsert ft.2.dataKey (.vList xs) tokens)
      | some (.vList ex) => .ok (dictInsert ft.2.dataKey (.vList (ex ++ xs)) tokens)
      | some _ => .error .attributeError
    | some v => .ok (dictInsert ft.2.dataKey v tokens)
  | some _ => .error .attributeError
  | none => .error (.keyError node.dataKey)

/-- The full link promotion loop (lines 445-480), aborting at the first
raised exception. -/
def promoteLinks (env : Env) (node : EntityNode) :
    List (String × FilterExpressionToken) → Tokens → Except PyError Tokens
  | [], tokens => .ok tokens
  | ft :: rest, tokens =>
    match promoteOne env node tokens ft with
    | .error e => .error e
    | .ok t1 => promoteLinks env node rest t1

/-- The body of `extract_shotgun_data_upwards` once a dictionary seed is
stored under the own level key (lines 350-480): partition the conditions; if
the stored record already has every required field skip the lookup,
otherwise run the single record lookup constrained to the id plus the plain
filters, disambiguating an empty answer through the bare id only lookup
(not-found versus filtered out, lines 427-433) and merging the fetched
record into the seed (line 436); finally promote the mapped link fields. -/
def extractStepSeeded (env : Env) (node : EntityNode) (tokens : Tokens)
    (rec : Record) : Except PyError Tokens :=
  if (extractClassify env node).fields.all (fun f => (lookupField rec f).isSome) then
    promoteLinks env node (extractClassify env node).linkMap tokens
  else
    match lookupField rec "id" with
    | none => .error (.keyError "id")
    | some idv =>
      match env.findOne node.entityType
          (.dictF { logicalOperator := "and",
                    conditions := (extractClassify env node).filters ++ [idCondition idv] })
          (some (extractClassify env node).fields) with
      | some rec2 =>
        promoteLinks env node (extractClassify env node).linkMap
          (dictInsert node.dataKey (.vDict (updateDict rec rec2)) tokens)
      | none =>
        match env.findOne node.entityType (.listF [( "id", "is", idv)]) none with
        | none => .error (.tankError (notFoundMsg node.entityType idv))
        | some _ => .error (.entityLinkTypeMismatch "")

/-- One node step of `extract_shotgun_data_upwards` (lines 317-480): the
HumanUser special case, then nothing to do when the own level key is absent,
otherwise the seeded body.  A non dictionary seed fails at the first
subscript in Python, modelled as a `TypeError`. -/
def extractShotgunDataStep (env : Env) (node : EntityNode) (tokens0 : Tokens) :
    Except PyError Tokens :=
  match humanUserSeed env node tokens0 with
  | .error e => .error e
  | .ok tokens =>
    match lookupField tokens node.dataKey with
    | none => .ok tokens
    | some (.vDict rec) => extractStepSeeded env node tokens rec
    | some _ => .error .typeError

/-- The recursion of `extract_shotgun_data_upwards` along the parent chain
(lines 482-486), given the chain of entity nodes from the seeded node up to
the root. -/
def extractShotgunDataUpwards (env : Env) :
    List EntityNode → Tokens → Except PyError Tokens
  | [], tokens => .ok tokens
  | node :: rest, tokens =>
    match extractShotgunDataStep env node tokens with
    | .error e => .error e
    | .ok t1 => extractShotgunDataUpwards env rest t1

/-- The required field set of `__get_entities` (lines 238-247) and of
`get_entity_from_fields` (lines 579-589): name expression fields, link
fields, the display name field, subclass extra fields. -/
def getEntitiesFields (env : Env) (node : EntityNode) : List String :=
  setUnion (setAdd (setUnion (setUnion [] node.sgFields) node.sgLinkFields)
    (env.nameFieldFor node.entityType)) node.additionalSgFields

/-- `Entity.__get_entities` (lines 227-283): resolve the filters against a
copy of the working map, compute the required field set, run the HumanUser
special case, and then either reuse the stored seed (field superset), or
query constrained to the seed id, or query with the fully resolved filter.
Besides the candidate list the embedding also returns the list of catalog
queries issued, so that the absence of a catalog round trip is a provable
statement; the source performs the `find` call exactly where a query is
logged here. -/
def getEntities (env : Env) (node : EntityNode) (sgData : Tokens) :
    Except PyError (List CatalogQuery × List Record) :=
  match resolveShotgunFilters node.filters sgData with
  | .error e => .error e
  | .ok filters =>
    match humanUserSeed env node sgData with
    | .error e => .error e
    | .ok tokens =>
      match lookupField tokens node.dataKey with
      | some (.vDict rec) =>
        if (getEntitiesFields env node).all (fun f => (lookupField rec f).isSome) then
          .ok ([], [rec])
        else
          match lookupField rec "id" with
          | none => .error (.keyError "id")
          | some idv =>
            let f1 : FilterDict :=
              { filters with conditions := filters.conditions ++ [idCondition idv] }
            .ok ([(node.entityType, f1, getEntitiesFields env node)],
                 env.find node.entityType f1 (getEntitiesFields env node))
      | some _ => .error .typeError
      | none =>
        .ok ([(node.entityType, filters, getEntitiesFields env node)],
             env.find node.entityType filters (getEntitiesFields env node))

/-- Events sent to the io receiver sink during folder creation, in emission
order. -/
inductive SinkEvent : Type where
  | secondaryEntity : String → Value → String → SinkEvent
  | makeEntityFolder : String → Record → String → SinkEvent
  | copyFiles : String → SinkEvent
  | symlinks : String → Tokens → SinkEvent

/-- The rendered folder name of a candidate (lines 180-184): the name
expression output with path separators translated to the native one. -/
def folderNameOf (env : Env) (node : EntityNode) (entity : Record) : String :=
  (node.generateName entity).replace "/" env.pathSep

/-- `os.path.join(parent, name)` for a relative name component. -/
def joinPath (env : Env) (p f : String) : String :=
  p ++ env.pathSep ++ f

/-- `Entity._register_secondary_entities` (lines 218-225): one sink event per
link field of the name expression; a link field absent from the candidate
record is a `KeyError`. -/
def registerSecondaryEntities (node : EntityNode) (entity : Record) (path : String) :
    List String → Except PyError (List SinkEvent)
  | [] => .ok []
  | lf :: rest =>
    match lookupField entity lf with
    | none => .error (.keyError lf)
    | some link =>
      match registerSecondaryEntities node entity path rest with
      | .error e => .error e
      | .ok es => .ok (.secondaryEntity path link node.configMetadata :: es)

/-- The per candidate body of `Entity._create_folders_impl` (lines 177-214):
render the name, build the full entity link, emit the sink events, and build
the child working map: a deep copy of the incoming map whose entry under the
own level key (required to exist and be a dictionary, lines 206-209) is
merged with the candidate fields and given the rendered `computed_name`. -/
def createFolderForEntity (env : Env) (node : EntityNode) (parentPath : String)
    (sgData : Tokens) (entity : Record) : Except PyError (List SinkEvent × (String × Tokens)) :=
  let folderName := folderNameOf env node entity
  let myPath := joinPath env parentPath folderName
  match lookupField entity (env.nameFieldFor node.entityType) with
  | none => .error (.keyError (env.nameFieldFor node.entityType))
  | some nameValue =>
    match lookupField entity "id" with
    | none => .error (.keyError "id")
    | some idv =>
      let fullEntityDict : Record :=
        [( "type", .vStr node.entityType), ("id", idv), ("name", nameValue)]
      match registerSecondaryEntities node entity myPath node.sgLinkFields with
      | .error e => .error e
      | .ok secEvents =>
        match lookupField sgData node.dataKey with
        | none => .error (.keyError node.dataKey)
        | some (.vDict r0) =>
          let merged := dictInsert "computed_name" (.vStr folderName) (updateDict r0 entity)
          let mySgData := dictInsert node.dataKey (.vDict merged) sgData
          .ok (secEvents ++
                [.makeEntityFolder myPath fullEntityDict node.configMetadata,
                 .copyFiles myPath, .symlinks myPath mySgData],
               (myPath, mySgData))
        | some _ => .error .attributeError

/-- The candidate loop of `Entity._create_folders_impl`, aborting at the
first raised exception and preserving candidate order. -/
def createFoldersList (env : Env) (node : EntityNode) (parentPath : String)
    (sgData : Tokens) : List Record → Except PyError (List SinkEvent × List (String × Tokens))
  | [] => .ok ([], [])
  | e :: rest =>
    match createFolderForEntity env node parentPath sgData e with
    | .error err => .error err
    | .ok (evs, item) =>
      match createFoldersList env node parentPath sgData rest with
      | .error err => .error err
      | .ok (evs1, items) => .ok (evs ++ evs1, item :: items)

/-- `Entity._create_folders_impl` (lines 171-216): fetch the candidates and
run the per candidate loop, returning the sink events and the ordered
`(path, workingMap)` pairs.  The query log of `getEntities` corresponds to
real side calls and is not part of the Python return value. -/
def createFoldersImpl (env : Env) (node : EntityNode) (parentPath : String)
    (sgData : Tokens) : Except PyError (List SinkEvent × List (String × Tokens)) :=
  match getEntities env node sgData with
  | .error e => .error e
  | .ok (_, entities) => createFoldersList env node parentPath sgData entities

/-- `Entity._should_item_be_processed` (lines 148-158): a non primary node
whose create-with-parent flag is off is skipped; otherwise the base class
implementation (base.py is not among the sources, carried as the abstract
function `base`) decides. -/
def shouldItemBeProcessed (base : String → Bool → Bool) (node : EntityNode)
    (engineStr : String) (isPrimary : Bool) : Bool :=
  if isPrimary == false && node.createWithParent == false then false
  else base engineStr isPrimary

/-- One element of the folder chain walked by `get_entries_from_path`: an
entity node, or a folder level without a `get_entity_from_fields` attribute
(the call then raises an `AttributeError`, caught at lines 508-510). -/
inductive FolderObj : Type where
  | entity : EntityNode → FolderObj
  | nonEntity : FolderObj

/-- True for a chain element without entity extraction support. -/
def FolderObj.isNonEntity : FolderObj → Bool
  | .nonEntity => true
  | .entity _ => false

/-- One entry of the `get_entries_from_path` output:
`{entity, path, primary, metadata}` (lines 524-539). -/
structure Entry where
  entity : Value
  path : String
  primary : Bool
  metadata : String

/-- The template key scan of `get_entity_from_fields` (lines 557-566): the
first decoded path field whose template key is bound to this entity type
yields the Shotgun field name and the decoded value. -/
def findTemplateField (node : EntityNode) : List (String × Value) → Option (String × Value)
  | [] => none
  | (fk, fv) :: rest =>
    match lookupField node.templateKeys fk with
    | some (et, fn) =>
      if et == node.entityType then some (fn, fv) else findTemplateField node rest
    | none => findTemplateField node rest

/-- `Entity.get_entity_from_fields` (lines 548-601): locate the decoded path
value for this entity type (a falsy field name counts as missing, line 569),
resolve the filters with the records accumulated so far, append the equality
condition on the decoded value, fetch exactly one record (fatal error when
none), and store it in the accumulating map under the entity type. -/
def getEntityFromFields (env : Env) (node : EntityNode)
    (pathFields : List (String × Value)) (sgData : Tokens) :
    Except PyError (Record × Tokens) :=
  match findTemplateField node pathFields with
  | none => .error (.tankError ( "Entity type " ++ node.entityType ++ " missing from path fields."))
  | some (fieldName, fieldValue) =>
    if fieldName == "" then
      .error (.tankError ( "Entity type " ++ node.entityType ++ " missing from path fields."))
    else
      match resolveShotgunFilters node.filters sgData with
      | .error e => .error e
      | .ok resolved =>
        let resolved1 : FilterDict :=
          { resolved with conditions := resolved.conditions ++
              [{ path := fieldName, relation := "is", values := [.lit fieldValue] }] }
        match env.findOne node.entityType (.dictF resolved1)
            (some (getEntitiesFields env node)) with
        | none =>
          .error (.tankError ( "Cannot find " ++ node.entityType ++ " Entity in Shotgun using filter."))
        | some entity => .ok (entity, dictInsert node.entityType (.vDict entity) sgData)

/-- The secondary entry loop of `get_entries_from_path` (lines 531-539).
NB: faithful to the source, the iterated link field list is the one of
`self` (the node the method was called on), not of the chain node whose
record is being read: line 532 reads `self._entity_expression`, and line 528
likewise stores the metadata of `self` on every entry. -/
def secondaryEntriesFor (selfNode : EntityNode) (entity : Record) (localPath : String) :
    List String → Except PyError (List Entry)
  | [] => .ok []
  | lf :: rest =>
    match lookupField entity lf with
    | none => .error (.keyError lf)
    | some link =>
      match secondaryEntriesFor selfNode entity localPath rest with
      | .error e => .error e
      | .ok es =>
        .ok ({ entity := link, path := localPath, primary := false,
               metadata := selfNode.configMetadata } :: es)

/-- The chain walk of `get_entries_from_path` (lines 504-539), threading the
accumulated record map, the primary entry list and the secondary entry
list.  A chain element without entity extraction support is skipped (the
`AttributeError` handler); an entity element fetches its record, reads its
display name (lines 514-515), builds the `{type, id, name}` link, derives
the local path through the template codec, appends the primary entry and the
secondary entries. -/
def processChain (env : Env) (selfNode : EntityNode) (pathFields : List (String × Value)) :
    List FolderObj → Tokens → List Entry → List Entry →
    Except PyError (List Entry × List Entry)
  | [], _, entries, secs => .ok (entries, secs)
  | .nonEntity :: rest, sgData, entries, secs =>
    processChain env selfNode pathFields rest sgData entries secs
  | .entity node :: rest, sgData, entries, secs =>
    match getEntityFromFields env node pathFields sgData with
    | .error e => .error e
    | .ok (entity, sgData1) =>
      match lookupField entity "type" with
      | none => .error (.keyError "type")
      | some (.vStr t) =>
        match lookupField entity (env.nameFieldFor t) with
        | none => .error (.keyError (env.nameFieldFor t))
        | some nameValue =>
          match lookupField entity "id" with
          | none => .error (.keyError "id")
          | some idv =>
            let entityDict : Record := [( "type", .vStr t), ("id", idv), ("name", nameValue)]
            let localPath := node.applyFields pathFields
            match secondaryEntriesFor selfNode entity localPath selfNode.sgLinkFields with
            | .error e => .error e
            | .ok newSecs =>
              processChain env selfNode pathFields rest sgData1
                (entries ++ [{ entity := .vDict entityDict, path := localPath,
                               primary := true, metadata := selfNode.configMetadata }])
                (secs ++ newSecs)
      | some _ => .error .typeError

/-- The body of `get_entries_from_path` after the chain has been assembled
(lines 498-546): walk the chain, then split the last added entry off as the
primary one and return the rest followed by every secondary entry. -/
def getEntriesCore (env : Env) (selfNode : EntityNode) (chain : List FolderObj)
    (pathFields : List (String × Value)) : Except PyError (Option Entry × List Entry) :=
  match processChain env selfNode pathFields chain [] [] [] with
  | .error e => .error e
  | .ok (entries, secs) => .ok (entries.getLast?, entries.dropLast ++ secs)

/-- `Entity.get_entries_from_path` (lines 488-546): the walked chain is
`[self] + self.get_parents()` reversed, i.e. root first, `self` last; the
decoded path field map obtained from the template codec is taken as input. -/
def getEntriesFromPath (env : Env) (selfNode : EntityNode) (parents : List FolderObj)
    (pathFields : List (String × Value)) : Except PyError (Option Entry × List Entry) :=
  getEntriesCore env selfNode ((FolderObj.entity selfNode :: parents).reverse) pathFields

/-! Concrete instances used by witnesses, counterexamples and evaluations. -/

/-- A minimal environment: the catalog always answers nothing, every entity
type displays through the field `code`, no current user. -/
def envA : Env :=
  { findOne := fun _ _ _ => none, find := fun _ _ _ => [],
    currentUser := none, nameFieldFor := fun _ => "code", pathSep := "/" }

/-- An environment whose `find` always returns the same two candidate
records, used to exhibit sibling isolation during folder creation. -/
def envB : Env :=
  { findOne := fun _ _ _ => none,
    find := fun _ _ _ =>
      [[( "id", .vInt 1), ("code", .vStr "A")], [( "id", .vInt 2), ("code", .vStr "B")]],
    currentUser := none, nameFieldFor := fun _ => "code", pathSep := "/" }

/-- A plain Shot node with name expression field `code` and no filters. -/
def nodeShot : EntityNode :=
  { entityType := "Shot", dataKey := "Shot", sgFields := [ "code"], sgLinkFields := [],
    additionalSgFields := [],
    filters := { logicalOperator := "and", conditions := [] },
    createWithParent := true, generateName := fun _ => "shot_folder",
    templateKeys := [( "Shot.code", ("Shot", "code"))],
    applyFields := fun _ => "/proj/shot", configMetadata := "md" }

/-- The Shot node with the create-with-parent flag off. -/
def nodeNoAuto : EntityNode := { nodeShot with createWithParent := false }

/-- A token standing for the Sequence level. -/
def tokSeq : FilterExpressionToken := { dataKey := "Sequence", entityType := "Sequence" }

/-- A seed record holding only identity (type and id). -/
def recW1 : Record := [( "type", .vStr "Shot"), ("id", .vInt 5)]

/-- A working map seeding the Shot level with `recW1`. -/
def tokensW1 : Tokens := [( "Shot", .vDict recW1)]

/-- A fully populated Shot record (id, type and the display field). -/
def recC2 : Record := [( "type", .vStr "Shot"), ("id", .vInt 1), ("code", .vStr "010")]

/-- A working map seeding the Shot level with the full record `recC2`. -/
def sgC2 : Tokens := [( "Shot", .vDict recC2)]

/-- A working map holding an incomplete Shot record: the id alone. -/
def sgC8 : Tokens := [( "Shot", .vDict [( "id", .vInt 7)])]

/-- A record whose link field points at an Asset, not a Sequence. -/
def recC4 : Record := [( "sg_seq", .vDict [( "type", .vStr "Asset"), ("id", .vInt 3)])]

/-- A working map seeding the Shot level with `recC4`. -/
def tokensC4 : Tokens := [( "Shot", .vDict recC4)]

/-- A Shot node whose single filter condition maps `sg_seq` to the Sequence
level through a token. -/
def nodeC5 : EntityNode :=
  { entityType := "Shot", dataKey := "Shot", sgFields := [], sgLinkFields := [],
    additionalSgFields := [],
    filters := { logicalOperator := "and",
                 conditions := [{ path := "sg_seq", relation := "is",
                                  values := [.token tokSeq] }] },
    createWithParent := true, generateName := fun _ => "n",
    templateKeys := [], applyFields := fun _ => "p", configMetadata := "md" }

/-- A Shot record whose declared dependency field `sg_seq` holds the empty
string, with every required field present. -/
def recC5 : Record :=
  [( "type", .vStr "Shot"), ("id", .vInt 1), ("code", .vStr "010"), ("sg_seq", .vStr "")]

/-- A working map seeding the Shot level with `recC5`. -/
def tokensC5 : Tokens := [( "Shot", .vDict recC5)]

/-- A literal-first condition under the step culling marker. -/
def condFromEx : Condition :=
  { path := "$FROM$Step", relation := "is", values := [.lit (.vStr "x")] }

/-- A token-first condition on `sg_sequence`. -/
def condTokEx : Condition :=
  { path := "sg_sequence", relation := "is", values := [.token tokSeq] }

/-- A Sequence record carrying a link field `sg_link` (to an Asset). -/
def seqRecC3 : Record :=
  [( "type", .vStr "Sequence"), ("id", .vInt 2), ("code", .vStr "SEQ"),
   ( "sg_link", .vDict [( "type", .vStr "Asset"), ("id", .vInt 9), ("name", .vStr "A")])]

/-- A Shot record with no link fields. -/
def shotRecC3 : Record := [( "type", .vStr "Shot"), ("id", .vInt 1), ("code", .vStr "010")]

/-- An environment returning `seqRecC3` for Sequence lookups and
`shotRecC3` for Shot lookups. -/
def envC3 : Env :=
  { findOne := fun et _ _ =>
      if et == "Sequence" then some seqRecC3
      else if et == "Shot" then some shotRecC3 else none,
    find := fun _ _ _ => [], currentUser := none,
    nameFieldFor := fun _ => "code", pathSep := "/" }

/-- A Sequence node owning the link field `sg_link`. -/
def seqNodeC3 : EntityNode :=
  { entityType := "Sequence", dataKey := "Sequence", sgFields := [ "code"],
    sgLinkFields := [ "sg_link"], additionalSgFields := [],
    filters := { logicalOperator := "and", conditions := [] },
    createWithParent := true, generateName := fun _ => "seq",
    templateKeys := [( "Sequence.code", ("Sequence", "code"))],
    applyFields := fun _ => "/proj/SEQ", configMetadata := "mdseq" }

/-- A leaf Shot node with no link fields, child of the Sequence node. -/
def shotNodeC3 : EntityNode :=
  { entityType := "Shot", dataKey := "Shot", sgFields := [ "code"],
    sgLinkFields := [], additionalSgFields := [],
    filters := { logicalOperator := "and", conditions := [] },
    createWithParent := true, generateName := fun _ => "shot",
    templateKeys := [( "Shot.code", ("Shot", "code"))],
    applyFields := fun _ => "/proj/SEQ/010", configMetadata := "mdshot" }

/-- Decoded path fields of the path walked in the C3 evaluation. -/
def pathFieldsC3 : List (String × Value) :=
  [( "Sequence.code", .vStr "SEQ"), ("Shot.code", .vStr "010")]

/-! Helper lemmas (shared). -/

theorem mem_setAdd {s : List String} {x y : String} :
    y ∈ setAdd s x ↔ y ∈ s ∨ y = x := by
  by_cases h : x ∈ s
  · simp only [setAdd, if_pos h]
    exact ⟨Or.inl, fun hy => hy.elim id (fun e => e ▸ h)⟩
  · simp [setAdd, if_neg h]

theorem mem_setUnion {y : String} :
    ∀ (xs s : List String), y ∈ setUnion s xs ↔ y ∈ s ∨ y ∈ xs
  | [], s => by simp [setUnion]
  | x :: xs, s => by
    rw [setUnion, mem_setUnion xs (setAdd s x), mem_setAdd]
    simp only [List.mem_cons]
    tauto

theorem mem_getEntitiesFields (env : Env) (node : EntityNode) (x : String) :
    x ∈ getEntitiesFields env node ↔
      x ∈ node.sgFields ∨ x ∈ node.sgLinkFields ∨
      x = env.nameFieldFor node.entityType ∨ x ∈ node.additionalSgFields := by
  unfold getEntitiesFields
  rw [mem_setUnion, mem_setAdd, mem_setUnion, mem_setUnion]
  simp only [List.not_mem_nil, false_or]
  tauto

/-! Claim theorems. -/

/-- C6: an entity node whose create-with-parent flag is off is never
processed by a non primary invocation, and for a primary invocation the
decision is exactly the base class decision, independent of the flag (the
flag can never cause a primary node to be skipped). -/
theorem create_with_parent_skip :
    (∀ (base : String → Bool → Bool) (node : EntityNode) (engineStr : String),
        node.createWithParent = false →
        shouldItemBeProcessed base node engineStr false = false) ∧
    (∀ (base : String → Bool → Bool) (node : EntityNode) (engineStr : String),
        shouldItemBeProcessed base node engineStr true = base engineStr true) := by
  constructor
  · intro base node e h
    simp [shouldItemBeProcessed, h]
  · intro base node e
    simp [shouldItemBeProcessed]

/-- C6 witness: a concrete non primary invocation on a node with the flag
off is skipped. -/
theorem create_with_parent_skip_witness :
    shouldItemBeProcessed (fun _ _ => true) nodeNoAuto "tk-maya" false = false :=
  create_with_parent_skip.1 (fun _ _ => true) nodeNoAuto "tk-maya" rfl

/-- C9 counterexample: a condition with a literal first value whose path
carries the step culling marker is discarded, not kept as a plain query
filter, refuting the claim that every literal-first condition is kept
whole. -/
theorem literal_from_condition_dropped_cex :
    classifyCondition { fields := [], linkMap := [], filters := [] } condFromEx =
      { fields := [], linkMap := [], filters := [] } ∧
    condFromEx.values = [CondValue.lit (Value.vStr "x")] ∧
    (classifyCondition { fields := [], linkMap := [], filters := [] } condFromEx).filters ≠
      [condFromEx] := by
  have hok : classifyCondition { fields := [], linkMap := [], filters := [] } condFromEx =
      { fields := [], linkMap := [], filters := [] } := rfl
  refine ⟨hok, rfl, ?_⟩
  rw [hok]
  intro h
  exact List.noConfusion h

/-- C9 (amended): the condition partition of bottom-up extraction ignores a
condition with an empty value list, discards a condition whose path starts
with the step culling marker, and otherwise inspects only the first value:
a token first value records a field-to-level mapping and adds the path to
the required fields, while a literal first value keeps the whole condition
as a plain query filter, even when a later value in the list is a token. -/
theorem classify_condition_rules (acc : ClassifyAcc) (c : Condition) :
    (c.values = [] → classifyCondition acc c = acc) ∧
    (∀ v0 vs, c.values = v0 :: vs → strStartsWith c.path "$FROM$" = true →
        classifyCondition acc c = acc) ∧
    (∀ t vs, c.values = CondValue.token t :: vs → strStartsWith c.path "$FROM$" = false →
        classifyCondition acc c =
          { acc with fields := setAdd acc.fields c.path,
                     linkMap := dictInsert c.path t acc.linkMap }) ∧
    (∀ v vs, c.values = CondValue.lit v :: vs → strStartsWith c.path "$FROM$" = false →
        classifyCondition acc c = { acc with filters := acc.filters ++ [c] }) := by
  refine ⟨fun h => ?_, fun v0 vs h hs => ?_, fun t vs h hs => ?_, fun v vs h hs => ?_⟩
  · simp [classifyCondition, h]
  · simp [classifyCondition, h, hs]
  · simp [classifyCondition, h, hs]
  · simp [classifyCondition, h, hs]

/-- C9 witness: a token-first condition becomes a mapping. -/
theorem classify_condition_rules_witness :
    classifyCondition { fields := [ "code"], linkMap := [], filters := [] } condTokEx =
      { fields := setAdd [ "code"] condTokEx.path,
        linkMap := dictInsert condTokEx.path tokSeq [],
        filters := [] } :=
  (classify_condition_rules { fields := [ "code"], linkMap := [], filters := [] }
    condTokEx).2.2.1 tokSeq [] rfl rfl

/-- C10: a chain element without entity extraction support is skipped with
no effect at all on the walk state, and a chain in which every element is
skipped produces no entry: the function returns no primary entry together
with an empty entry list. -/
theorem non_entity_skip_and_empty :
    (∀ (env : Env) (selfNode : EntityNode) (pathFields : List (String × Value))
        (rest : List FolderObj) (sgData : Tokens) (entries secs : List Entry),
        processChain env selfNode pathFields (FolderObj.nonEntity :: rest) sgData entries secs =
          processChain env selfNode pathFields rest sgData entries secs) ∧
    (∀ (env : Env) (selfNode : EntityNode) (chain : List FolderObj)
        (pathFields : List (String × Value)),
        chain.all FolderObj.isNonEntity = true →
        getEntriesCore env selfNode chain pathFields = .ok (none, [])) := by
  constructor
  · intro env s pf rest sg e sec
    rfl
  · intro env s chain pf h
    have hwalk : ∀ ch : List FolderObj, ch.all FolderObj.isNonEntity = true →
        ∀ (sg : Tokens) (e sec : List Entry),
        processChain env s pf ch sg e sec = .ok (e, sec) := by
      intro ch
      induction ch with
      | nil => intro _ sg e sec; rfl
      | cons fo rest ih =>
        intro hall sg e sec
        cases fo with
        | nonEntity =>
          have hrest : rest.all FolderObj.isNonEntity = true := by
            simpa [FolderObj.isNonEntity] using hall
          exact ih hrest sg e sec
        | entity n => simp [FolderObj.isNonEntity] at hall
    unfold getEntriesCore
    rw [hwalk chain h]
    rfl

/-- C10 witness: a two element all skipped chain yields no primary entry and
an empty list. -/
theorem non_entity_skip_and_empty_witness :
    getEntriesCore envA nodeShot [FolderObj.nonEntity, FolderObj.nonEntity] [] =
      .ok (none, []) :=
  non_entity_skip_and_empty.2 envA nodeShot [FolderObj.nonEntity, FolderObj.nonEntity] [] rfl

/-- C2: when the working map already holds a record for this level whose
stored fields form a superset of the required field set (name expression
fields, link fields, the display name field, subclass extra fields — the
membership characterization is the second conjunct), and the filter
resolution that the source performs first succeeds, then no catalog query
is issued and the candidate list is exactly the singleton holding that
pre-existing record. -/
theorem reuse_seed_no_query (env : Env) (node : EntityNode) (sgData : Tokens)
    (rec : Record) (f : FilterDict)
    (hres : resolveShotgunFilters node.filters sgData = .ok f)
    (hkey : lookupField sgData node.dataKey = some (.vDict rec))
    (hsub : ((getEntitiesFields env node).all (fun fl => (lookupField rec fl).isSome)) = true) :
    getEntities env node sgData = .ok ([], [rec]) ∧
    (∀ x, x ∈ getEntitiesFields env node ↔
      x ∈ node.sgFields ∨ x ∈ node.sgLinkFields ∨
      x = env.nameFieldFor node.entityType ∨ x ∈ node.additionalSgFields) := by
  constructor
  · have hseed : humanUserSeed env node sgData = .ok sgData := by
      simp [humanUserSeed, hkey]
    unfold getEntities
    simp only [hres, hseed, hkey, hsub]
    simp
  · exact mem_getEntitiesFields env node

/-- C2 witness: a fully populated Shot seed is returned directly with no
catalog query. -/
theorem reuse_seed_no_query_witness :
    getEntities envA nodeShot sgC2 = .ok ([], [recC2]) :=
  (reuse_seed_no_query envA nodeShot sgC2 recC2
    { logicalOperator := "and", conditions := [] } rfl rfl rfl).1

/-- C8: with an incomplete record stored for this level, the single catalog
query uses the resolved filter narrowed by the equality condition on the
stored id and requests the full required field set (whose membership is the
third conjunct); with no record stored for this level (and the entity type
not subject to the current user special case), the fully resolved filter is
used and the candidate list is whatever the catalog returns. -/
theorem get_entities_query_shapes (env : Env) (node : EntityNode) (sgData : Tokens)
    (f : FilterDict) (hres : resolveShotgunFilters node.filters sgData = .ok f) :
    (∀ rec idv, lookupField sgData node.dataKey = some (.vDict rec) →
      ((getEntitiesFields env node).all (fun fl => (lookupField rec fl).isSome)) = false →
      lookupField rec "id" = some idv →
      getEntities env node sgData =
        .ok ([(node.entityType,
               { f with conditions := f.conditions ++ [idCondition idv] },
               getEntitiesFields env node)],
             env.find node.entityType
               { f with conditions := f.conditions ++ [idCondition idv] }
               (getEntitiesFields env node))) ∧
    (node.entityType ≠ "HumanUser" → lookupField sgData node.dataKey = none →
      getEntities env node sgData =
        .ok ([(node.entityType, f, getEntitiesFields env node)],
             env.find node.entityType f (getEntitiesFields env node))) ∧
    (∀ x, x ∈ getEntitiesFields env node ↔
      x ∈ node.sgFields ∨ x ∈ node.sgLinkFields ∨
      x = env.nameFieldFor node.entityType ∨ x ∈ node.additionalSgFields) := by
  refine ⟨fun rec idv hkey hsub hid => ?_, fun hhu hkey => ?_, mem_getEntitiesFields env node⟩
  · have hseed : humanUserSeed env node sgData = .ok sgData := by
      simp [humanUserSeed, hkey]
    unfold getEntities
    simp only [hres, hseed, hkey, hsub, hid]
    simp
  · have hseed : humanUserSeed env node sgData = .ok sgData := by
      simp [humanUserSeed, hhu]
    unfold getEntities
    simp only [hres, hseed, hkey]

/-- C8 witness: an incomplete Shot seed (id alone) issues exactly the narrowed
query for the full field set. -/
theorem get_entities_query_shapes_witness :
    getEntities envA nodeShot sgC8 =
      .ok ([( "Shot",
             { logicalOperator := "and", conditions := [idCondition (.vInt 7)] },
             getEntitiesFields envA nodeShot)],
           envA.find "Shot"
             { logicalOperator := "and", conditions := [idCondition (.vInt 7)] }
             (getEntitiesFields envA nodeShot)) :=
  (get_entities_query_shapes envA nodeShot sgC8
    { logicalOperator := "and", conditions := [] } rfl).1
    [( "id", .vInt 7)] (.vInt 7) rfl rfl rfl

/-- C1: during bottom-up extraction, when the id-and-plain-filters lookup
returns nothing, the second bare id-only lookup disambiguates: an empty
answer raises the fatal not-found error, a non empty answer raises the
link/filter type mismatch — each branch raises exactly its own error. -/
theorem extract_mismatch_disambiguation (env : Env) (node : EntityNode)
    (tokens : Tokens) (rec : Record) (idv : Value)
    (hkey : lookupField tokens node.dataKey = some (.vDict rec))
    (hsub : ((extractClassify env node).fields.all
      (fun f => (lookupField rec f).isSome)) = false)
    (hid : lookupField rec "id" = some idv)
    (hq : env.findOne node.entityType
        (.dictF { logicalOperator := "and",
                  conditions := (extractClassify env node).filters ++ [idCondition idv] })
        (some (extractClassify env node).fields) = none) :
    (env.findOne node.entityType (.listF [( "id", "is", idv)]) none = none →
        extractShotgunDataStep env node tokens =
          .error (.tankError (notFoundMsg node.entityType idv))) ∧
    (∀ u, env.findOne node.entityType (.listF [( "id", "is", idv)]) none = some u →
        extractShotgunDataStep env node tokens =
          .error (.entityLinkTypeMismatch "")) := by
  have hseed : humanUserSeed env node tokens = .ok tokens := by
    simp [humanUserSeed, hkey]
  have hstep : extractShotgunDataStep env node tokens = extractStepSeeded env node tokens rec := by
    unfold extractShotgunDataStep
    simp only [hseed, hkey]
  constructor
  · intro h2
    rw [hstep]
    unfold extractStepSeeded
    simp only [hsub, hid, hq, h2]
    simp
  · intro u h2
    rw [hstep]
    unfold extractStepSeeded
    simp only [hsub, hid, hq, h2]
    simp

/-- C1 witness: with a catalog that never answers, a Shot seed lacking its
name expression field raises precisely the fatal not-found error. -/
theorem extract_mismatch_disambiguation_witness :
    extractShotgunDataStep envA nodeShot tokensW1 =
      .error (.tankError (notFoundMsg "Shot" (.vInt 5))) :=
  (extract_mismatch_disambiguation envA nodeShot tokensW1 recW1 (.vInt 5)
    rfl rfl rfl rfl).1 rfl

/-- C4: for a collected field-to-target-level mapping, a single link whose
type differs from the target level entity type raises the mismatch error
with nothing merged; otherwise the value is merged into the target slot:
a link dictionary of the matching type is field merged (into an absent or
dictionary shaped slot), a list is appended (to an absent or list shaped
slot), and a scalar overwrites the slot unconditionally. -/
theorem promote_link_merge_rules (env : Env) (node : EntityNode) (tokens : Tokens)
    (rec : Record) (field : String) (tok : FilterExpressionToken)
    (hrec : lookupField tokens node.dataKey = some (.vDict rec)) :
    (∀ d ts, lookupField rec field = some (.vDict d) →
        lookupField d "type" = some (.vStr ts) → ts ≠ tok.entityType →
        promoteOne env node tokens (field, tok) = .error (.entityLinkTypeMismatch "")) ∧
    (∀ d ts, lookupField rec field = some (.vDict d) →
        lookupField d "type" = some (.vStr ts) → ts = tok.entityType →
        (lookupField tokens tok.dataKey = none →
          promoteOne env node tokens (field, tok) =
            .ok (dictInsert tok.dataKey (.vDict (updateDict [] d)) tokens)) ∧
        (∀ ex, lookupField tokens tok.dataKey = some (.vDict ex) →
          promoteOne env node tokens (field, tok) =
            .ok (dictInsert tok.dataKey (.vDict (updateDict ex d)) tokens))) ∧
    (∀ xs, lookupField rec field = some (.vList xs) →
        (lookupField tokens tok.dataKey = none →
          promoteOne env node tokens (field, tok) =
            .ok (dictInsert tok.dataKey (.vList xs) tokens)) ∧
        (∀ ex, lookupField tokens tok.dataKey = some (.vList ex) →
          promoteOne env node tokens (field, tok) =
            .ok (dictInsert tok.dataKey (.vList (ex ++ xs)) tokens))) ∧
    (∀ n, lookupField rec field = some (.vInt n) →
        promoteOne env node tokens (field, tok) =
          .ok (dictInsert tok.dataKey (.vInt n) tokens)) ∧
    (∀ s, lookupField rec field = some (.vStr s) →
        promoteOne env node tokens (field, tok) =
          .ok (dictInsert tok.dataKey (.vStr s) tokens)) := by
  refine ⟨fun d ts hv ht hne => ?_,
          fun d ts hv ht heq => ⟨fun hslot => ?_, fun ex hslot => ?_⟩,
          fun xs hv => ⟨fun hslot => ?_, fun ex hslot => ?_⟩,
          fun n hv => ?_, fun s hv => ?_⟩ <;>
    unfold promoteOne <;>
    simp only [hrec, hv] <;>
    first
      | (simp only [ht]; simp [hne])
      | (simp only [ht, heq]; simp [hslot])
      | simp [hslot]

/-- C4 witness: a link field pointing at an Asset while the target level
expects a Sequence raises the mismatch. -/
theorem promote_link_merge_rules_witness :
    promoteOne envA nodeShot tokensC4 ("sg_seq", tokSeq) =
      .error (.entityLinkTypeMismatch "") :=
  (promote_link_merge_rules envA nodeShot tokensC4 recC4 "sg_seq" tokSeq rfl).1
    [( "type", .vStr "Asset"), ("id", .vInt 3)] "Asset" rfl rfl (by decide)

/-- C5 counterexample: a declared dependency field holding the empty string
does not raise the mismatch error — the extraction step succeeds and the
empty string is merged (overwriting the target slot), refuting the claim
that every empty value raises the mismatch. -/
theorem empty_value_not_mismatch_cex :
    extractShotgunDataStep envA nodeC5 tokensC5 =
      .ok [( "Shot", .vDict recC5), ("Sequence", .vStr "")] ∧
    ∀ m, extractShotgunDataStep envA nodeC5 tokensC5 ≠
      .error (.entityLinkTypeMismatch m) := by
  have hok : extractShotgunDataStep envA nodeC5 tokensC5 =
      .ok [( "Shot", .vDict recC5), ("Sequence", .vStr "")] := rfl
  exact ⟨hok, fun m h => Except.noConfusion (hok.symm.trans h)⟩

/-- C5 (amended): the mismatch error for an unresolvable dependency is
raised exactly when the declared field is missing from the record or holds
None; an empty string is merged as a scalar overwrite and an empty list
appends nothing, neither is an error. -/
theorem promote_missing_or_none_mismatch (env : Env) (node : EntityNode)
    (tokens : Tokens) (rec : Record) (field : String) (tok : FilterExpressionToken)
    (hrec : lookupField tokens node.dataKey = some (.vDict rec)) :
    (lookupField rec field = none →
      promoteOne env node tokens (field, tok) =
        .error (.entityLinkTypeMismatch
          (noValueMsg node.entityType (env.nameFieldFor node.entityType) field))) ∧
    (lookupField rec field = some .vNone →
      promoteOne env node tokens (field, tok) =
        .error (.entityLinkTypeMismatch
          (noValueMsg node.entityType (env.nameFieldFor node.entityType) field))) ∧
    (lookupField rec field = some (.vStr "") →
      promoteOne env node tokens (field, tok) =
        .ok (dictInsert tok.dataKey (.vStr "") tokens)) ∧
    (lookupField rec field = some (.vList []) → lookupField tokens tok.dataKey = none →
      promoteOne env node tokens (field, tok) =
        .ok (dictInsert tok.dataKey (.vList []) tokens)) := by
  refine ⟨fun hv => ?_, fun hv => ?_, fun hv => ?_, fun hv hslot => ?_⟩
  · unfold promoteOne; simp only [hrec, hv]
  · unfold promoteOne; simp only [hrec, hv]
  · unfold promoteOne; simp only [hrec, hv]
  · unfold promoteOne; simp only [hrec, hv]; simp [hslot]

/-- C5 witness: a missing dependency field raises the mismatch with the
no-value message. -/
theorem promote_missing_or_none_mismatch_witness :
    promoteOne envA nodeShot tokensW1 ("sg_status", tokSeq) =
      .error (.entityLinkTypeMismatch (noValueMsg "Shot" "code" "sg_status")) :=
  (promote_missing_or_none_mismatch envA nodeShot tokensW1 recW1 "sg_status" tokSeq
    rfl).1 rfl

/-- Helper: the secondary entity registration succeeds when every link
field is present in the candidate record. -/
theorem registerSecondaryEntities_ok (node : EntityNode) (entity : Record) (path : String) :
    ∀ lfs : List String, (∀ lf ∈ lfs, (lookupField entity lf).isSome) →
    ∃ es, registerSecondaryEntities node entity path lfs = .ok es := by
  intro lfs
  induction lfs with
  | nil => intro _; exact ⟨[], rfl⟩
  | cons lf rest ih =>
    intro h
    have h1 := h lf (List.mem_cons_self lf rest)
    obtain ⟨link, hlink⟩ := Option.isSome_iff_exists.mp h1
    obtain ⟨es, hes⟩ := ih (fun x hx => h x (List.mem_cons_of_mem _ hx))
    refine ⟨.secondaryEntity path link node.configMetadata :: es, ?_⟩
    unfold registerSecondaryEntities
    simp only [hlink, hes]

/-- Helper: the per candidate body succeeds and produces exactly the
expected path and working map when the working map seeds this level with a
record and the candidate carries its display name field, its id and all
link fields. -/
theorem createFolderForEntity_ok (env : Env) (node : EntityNode) (parentPath : String)
    (sgData : Tokens) (r0 : Record) (entity : Record)
    (hkey : lookupField sgData node.dataKey = some (.vDict r0))
    (hname : (lookupField entity (env.nameFieldFor node.entityType)).isSome)
    (hid : (lookupField entity "id").isSome)
    (hlinks : ∀ lf ∈ node.sgLinkFields, (lookupField entity lf).isSome) :
    ∃ evs, createFolderForEntity env node parentPath sgData entity =
      .ok (evs, (joinPath env parentPath (folderNameOf env node entity),
                 dictInsert node.dataKey
                   (.vDict (dictInsert "computed_name" (.vStr (folderNameOf env node entity))
                     (updateDict r0 entity))) sgData)) := by
  obtain ⟨nameValue, hnv⟩ := Option.isSome_iff_exists.mp hname
  obtain ⟨idv, hiv⟩ := Option.isSome_iff_exists.mp hid
  obtain ⟨es, hes⟩ := registerSecondaryEntities_ok node entity
    (joinPath env parentPath (folderNameOf env node entity)) node.sgLinkFields hlinks
  refine ⟨es ++
    [.makeEntityFolder (joinPath env parentPath (folderNameOf env node entity))
       [( "type", .vStr node.entityType), ("id", idv), ("name", nameValue)]
       node.configMetadata,
     .copyFiles (joinPath env parentPath (folderNameOf env node entity)),
     .symlinks (joinPath env parentPath (folderNameOf env node entity))
       (dictInsert node.dataKey
         (.vDict (dictInsert "computed_name" (.vStr (folderNameOf env node entity))
           (updateDict r0 entity))) sgData)], ?_⟩
  unfold createFolderForEntity
  simp only [hnv, hiv, hes, hkey]

/-- Helper: the candidate loop succeeds on a list of candidates that all
satisfy the per candidate conditions, and returns exactly the expected
`(path, workingMap)` pair for each candidate, in order. -/
theorem createFoldersList_ok (env : Env) (node : EntityNode) (parentPath : String)
    (sgData : Tokens) (r0 : Record)
    (hkey : lookupField sgData node.dataKey = some (.vDict r0)) :
    ∀ l : List Record,
    (∀ e ∈ l, (lookupField e (env.nameFieldFor node.entityType)).isSome ∧
        (lookupField e "id").isSome ∧ ∀ lf ∈ node.sgLinkFields, (lookupField e lf).isSome) →
    ∃ evs, createFoldersList env node parentPath sgData l =
      .ok (evs, l.map (fun e =>
        (joinPath env parentPath (folderNameOf env node e),
         dictInsert node.dataKey
           (.vDict (dictInsert "computed_name" (.vStr (folderNameOf env node e))
             (updateDict r0 e))) sgData))) := by
  intro l
  induction l with
  | nil => intro _; exact ⟨[], rfl⟩
  | cons e rest ih =>
    intro h
    obtain ⟨h1, h2, h3⟩ := h e (List.mem_cons_self e rest)
    obtain ⟨evs1, hev1⟩ := createFolderForEntity_ok env node parentPath sgData r0 e hkey h1 h2 h3
    obtain ⟨evs2, hev2⟩ := ih (fun x hx => h x (List.mem_cons_of_mem _ hx))
    refine ⟨evs1 ++ evs2, ?_⟩
    unfold createFoldersList
    simp only [hev1, hev2, List.map_cons]

/-- C7: top-down materialization does not touch the incoming working map
(the embedding is pure, every output refers to the unchanged input), and
the pairs returned for the candidates are independent: the working map
returned for each candidate equals the input map with only that candidate
fields plus its computed name merged under this level key, so no sibling
candidate data can appear in another candidate map. -/
theorem create_folders_branch_isolation (env : Env) (node : EntityNode)
    (parentPath : String) (sgData : Tokens) (qs : List CatalogQuery)
    (cands : List Record) (r0 : Record)
    (hge : getEntities env node sgData = .ok (qs, cands))
    (hkey : lookupField sgData node.dataKey = some (.vDict r0))
    (hok : ∀ e ∈ cands, (lookupField e (env.nameFieldFor node.entityType)).isSome ∧
        (lookupField e "id").isSome ∧ ∀ lf ∈ node.sgLinkFields, (lookupField e lf).isSome) :
    (createFoldersImpl env node parentPath sgData).map (fun r => r.2) =
      .ok (cands.map (fun e =>
        (joinPath env parentPath (folderNameOf env node e),
         dictInsert node.dataKey
           (.vDict (dictInsert "computed_name" (.vStr (folderNameOf env node e))
             (updateDict r0 e))) sgData))) := by
  obtain ⟨evs, hlist⟩ := createFoldersList_ok env node parentPath sgData r0 hkey cands hok
  unfold createFoldersImpl
  simp only [hge, hlist, Except.map]

/-- C7 witness: two concrete sibling candidates each receive the input map
extended with exactly their own fields. -/
theorem create_folders_branch_isolation_witness :
    (createFoldersImpl envB nodeShot "/studio" sgC8).map (fun r => r.2) =
      .ok (([[( "id", .vInt 1), ("code", .vStr "A")],
             [( "id", .vInt 2), ("code", .vStr "B")]] : List Record).map (fun e =>
        (joinPath envB "/studio" (folderNameOf envB nodeShot e),
         dictInsert "Shot"
           (.vDict (dictInsert "computed_name" (.vStr (folderNameOf envB nodeShot e))
             (updateDict [( "id", .vInt 7)] e))) sgC8))) :=
  create_folders_branch_isolation envB nodeShot "/studio" sgC8
    [( "Shot",
       { logicalOperator := "and", conditions := [idCondition (.vInt 7)] },
       getEntitiesFields envB nodeShot)]
    [[( "id", .vInt 1), ("code", .vStr "A")], [( "id", .vInt 2), ("code", .vStr "B")]]
    [( "id", .vInt 7)] rfl rfl (by decide)

/-- C3: evaluation of the source at the failing input.  The chain is
Sequence (owning the link field `sg_link`, whose fetched record even
carries the link value) followed by the leaf Shot (no link fields).  The
source iterates the link field list of the leaf for every chain node (line
532 reads `self._entity_expression`), so the output contains no secondary
entry at all — the entry list next to the primary holds only the Sequence
primary entry, tagged primary, and the Sequence link field contributed
nothing, although the claim requires a non primary secondary entry for it.
(The entries also all carry the leaf metadata, line 528.) -/
theorem entries_secondary_uses_leaf_link_fields_eval :
    getEntriesFromPath envC3 shotNodeC3 [FolderObj.entity seqNodeC3] pathFieldsC3 =
      .ok (some { entity := .vDict [( "type", .vStr "Shot"), ("id", .vInt 1),
                                    ( "name", .vStr "010")],
                  path := "/proj/SEQ/010", primary := true, metadata := "mdshot" },
           [{ entity := .vDict [( "type", .vStr "Sequence"), ("id", .vInt 2),
                                ( "name", .vStr "SEQ")],
              path := "/proj/SEQ", primary := true, metadata := "mdshot" }]) := rfl

end TkEntity
